import Mathlib

/-!
# gdb.arch/x86-fsgs.c

A shallow embedding of the test program `gdb/testsuite/gdb.arch/x86-fsgs.c`.

The program talks to its surroundings only through two system calls
(`modify_ldt`, `arch_prctl`) and a handful of inline instructions (`mov` to and
from `fs`/`gs`, `wrfsbase`, `wrgsbase`).  Each C function is translated into a
function on an explicit `Machine` state; every one of those operations is
appended to `Machine.trace`, so that what the program does, and in which order,
can be stated about the trace.

Integer conventions: `unsigned int` and `int` are 32 bits wide, `unsigned long`,
`size_t` and pointers are `Host.long_bits` wide, and the conversions the source
performs on its own values (`(unsigned long) base` stored into `ud.base_addr`,
`(unsigned int) size`, the shift in `unsigned int`) are written as an explicit
`% 2 ^ w`.  The result of a system call is taken as the `int` that the program
keeps in `errcode`.

Scope of the machine: the kernel answers each system call with a result that
the run does not choose (`Machine.replies`), and a call has its effect exactly
when the answer is `0`.  The one fault of the processor that is modelled is the
one a load of a segment register raises when the selector names no descriptor
that can be loaded: the process is then killed at the `mov` (`Step.killed`,
`Outcome.killed`).  Memory is total: a read through a segment returns the
contents at that segment's base plus the offset, and page faults are not
modelled.
-/

namespace X86Fsgs

/-! ## Data model -/

/-- The `struct user_desc` of `<asm/ldt.h>` (a kernel header, not part of the
program), one Lean field per C field.  All fields are `unsigned int` or
bit-fields of it, except that some systems declare `base_addr` as
`unsigned long`: its width is `Host.base_addr_bits`. -/
structure user_desc where
  entry_number : Nat
  base_addr : Nat
  limit : Nat
  seg_32bit : Nat
  contents : Nat
  read_exec_only : Nat
  limit_in_pages : Nat
  seg_not_present : Nat
  useable : Nat
  lm : Nat
  deriving DecidableEq, Repr

/-- The two segment registers the program uses. -/
inductive Seg where
  | fs
  | gs
  deriving DecidableEq, Repr

/-- One operation of the program on its surroundings, with the answer it got. -/
inductive Event where
  /-- The call `syscall (SYS_modify_ldt, func, &ud, sizeof (ud))` and its result. -/
  | modify_ldt (func : Nat) (ud : user_desc) (ret : Int)
  /-- The call `syscall (SYS_arch_prctl, ARCH_SET_FS / ARCH_SET_GS, addr)` and its result. -/
  | arch_prctl (seg : Seg) (addr : Nat) (ret : Int)
  /-- The instruction `mov selector, %fs` / `mov selector, %gs`. -/
  | load (seg : Seg) (selector : Nat)
  /-- The instruction `mov %fs:offset, value` / `mov %gs:offset, value`. -/
  | read (seg : Seg) (offset : Nat) (value : Int)
  /-- The instruction `wrfsbase addr` / `wrgsbase addr`. -/
  | wrbase (seg : Seg) (addr : Nat)
  /-- The call `perror (msg)`. -/
  | perror (msg : String)
  /-- The call `abort ()`. -/
  | abort
  deriving DecidableEq, Repr

/-- What is fixed for one run of the program: the C data model, the capability
flags the program is compiled with, and the addresses of its three globals. -/
structure Host where
  /-- Width of `unsigned long`, `size_t` and of pointers. -/
  long_bits : Nat
  /-- Width of the field `ud.base_addr`. -/
  base_addr_bits : Nat
  HAVE_ARCH_SET_FS : Bool
  HAVE_ARCH_SET_GS : Bool
  HAVE_WRFSGSBASE : Bool
  /-- The address `&initial`. -/
  initial : Nat
  /-- The address `&other`. -/
  other : Nat
  /-- The address `&twentythree`. -/
  twentythree : Nat

/-- The state of the process and of the kernel and processor around it. -/
structure Machine where
  /-- The local descriptor table: the descriptors installed so far, the most
  recent one first. -/
  ldt : List user_desc
  /-- The descriptors of the global descriptor table that a user program may
  load.  The program never changes them. -/
  gdt : List user_desc
  /-- The base address currently behind `fs`. -/
  fs_base : Nat
  /-- The base address currently behind `gs`. -/
  gs_base : Nat
  /-- The selector last loaded into `fs`. -/
  fs_sel : Nat
  /-- The selector last loaded into `gs`. -/
  gs_sel : Nat
  /-- Memory, byte by byte. -/
  mem : Nat → Nat
  /-- The result the kernel gives to the `n`-th system call of the run, as the
  `int` the program stores it in. -/
  replies : Nat → Int
  /-- Number of system calls made so far. -/
  ncalls : Nat
  /-- Everything the program has done so far, oldest first. -/
  trace : List Event

/-- How a run of `main` ends: it returns an exit code, it calls `abort`, or the
process is killed by the signal that a fault of the processor raises. -/
inductive Outcome where
  | exited (code : Int)
  | aborted
  | killed
  deriving DecidableEq, Repr

/-- How a part of the program that the processor may refuse ends: either it
completes, with a value and the state after it, or an instruction faults and the
process is killed in the given state. -/
inductive Step (α : Type) where
  | done (value : α) (m : Machine)
  | killed (m : Machine)

/-! ## Integer conversions -/

/-- Conversion to `unsigned int`. -/
def to_uint (n : Nat) : Nat := n % 2 ^ 32

/-- Conversion to `unsigned long` on host `h`. -/
def to_ulong (h : Host) (n : Nat) : Nat := n % 2 ^ h.long_bits

/-- Conversion of a 32-bit pattern to `int` (two's complement). -/
def to_int (n : Nat) : Int :=
  if n % 2 ^ 32 < 2 ^ 31 then (n % 2 ^ 32 : Nat) else (n % 2 ^ 32 : Nat) - 2 ^ 32

/-- The constant `sizeof (int)`. -/
def sizeof_int : Nat := 4

/-- The `int` variable `initial` with its initialiser. -/
def initial : Int := 42

/-- The `int` variable `other` with its initialiser. -/
def other : Int := -42

/-- The `int` variable `twentythree` with its initialiser. -/
def twentythree : Int := 23

/-! ## The machine: kernel and processor -/

/-- Record an event. -/
def emit (e : Event) (m : Machine) : Machine :=
  { m with trace := m.trace ++ [e] }

/-- The descriptor in slot `index` of a descriptor table. -/
def table_lookup (table : List user_desc) (index : Nat) : Option user_desc :=
  table.find? (fun d => d.entry_number == index)

/-- The kernel's `modify_ldt`: it answers with the next reply, and a write
request (`func = 1`) that is answered with `0` installs the descriptor. -/
def sys_modify_ldt (func : Nat) (ud : user_desc) (m : Machine) : Int × Machine :=
  let ret := m.replies m.ncalls
  (ret, emit (Event.modify_ldt func ud ret)
    { m with ncalls := m.ncalls + 1,
             ldt := if func = 1 ∧ ret = 0 then ud :: m.ldt else m.ldt })

/-- Set the base behind a segment register. -/
def set_base (seg : Seg) (addr : Nat) (m : Machine) : Machine :=
  match seg with
  | Seg.fs => { m with fs_base := addr }
  | Seg.gs => { m with gs_base := addr }

/-- The base behind a segment register. -/
def get_base (seg : Seg) (m : Machine) : Nat :=
  match seg with
  | Seg.fs => m.fs_base
  | Seg.gs => m.gs_base

/-- The kernel's `arch_prctl (ARCH_SET_FS / ARCH_SET_GS, addr)`: it answers with
the next reply, and sets the base when that answer is `0`. -/
def sys_arch_prctl (seg : Seg) (addr : Nat) (m : Machine) : Int × Machine :=
  let ret := m.replies m.ncalls
  let m1 := { m with ncalls := m.ncalls + 1 }
  (ret, emit (Event.arch_prctl seg addr ret) (if ret = 0 then set_base seg addr m1 else m1))

/-- The descriptor can be loaded into `fs` or `gs`: the segment is present, and
it is a data segment or a code segment that may be read (`contents >= 2` is
code, and `read_exec_only` then means execute-only). -/
def loadable (d : user_desc) : Bool :=
  d.seg_not_present == 0 && !(decide (2 ≤ d.contents) && d.read_exec_only != 0)

/-- The descriptor a 16-bit selector names: bit 2 chooses the local or the
global table, the bits above it are the slot.  The result is `none` when the
slot is empty or holds a descriptor that cannot be loaded. -/
def selector_descriptor (m : Machine) (sel : Nat) : Option user_desc :=
  match table_lookup (if sel &&& 4 = 4 then m.ldt else m.gdt) (sel >>> 3) with
  | some d => if loadable d then some d else none
  | none => none

/-- Set the selector held in a segment register. -/
def set_selector (seg : Seg) (sel : Nat) (m : Machine) : Machine :=
  match seg with
  | Seg.fs => { m with fs_sel := sel }
  | Seg.gs => { m with gs_sel := sel }

/-- The instruction `mov selector, %seg`.  It is put on the trace whether it
completes or faults.  The register takes the low 16 bits of the operand.  A null
selector (slot 0 of the global table) is loaded without a fault and gives base
0, as Intel processors do in 64-bit mode; memory being total in this model, a
read through it returns the contents at address 0, where a real process finds
no page.  Any other selector must name a descriptor that can be loaded, whose
base the register then takes; if it does not, the instruction faults and the
process is killed. -/
def mov_to_seg (seg : Seg) (selector : Nat) (m : Machine) : Step Unit :=
  let sel := selector % 2 ^ 16
  let m1 := emit (Event.load seg selector) m
  if sel < 4 then
    Step.done () (set_selector seg sel (set_base seg 0 m1))
  else
    match selector_descriptor m sel with
    | some d => Step.done () (set_selector seg sel (set_base seg d.base_addr m1))
    | none => Step.killed m1

/-- The four bytes at `addr`, little-endian, as an `int`. -/
def load_int (mem : Nat → Nat) (addr : Nat) : Int :=
  to_int (mem addr % 256 + 256 * (mem (addr + 1) % 256)
    + 65536 * (mem (addr + 2) % 256) + 16777216 * (mem (addr + 3) % 256))

/-- The instruction `mov %seg:offset, value`: a read through a segment returns
the contents at that segment's base plus the offset. -/
def mov_from_seg (seg : Seg) (offset : Nat) (m : Machine) : Int × Machine :=
  let value := load_int m.mem (get_base seg m + offset)
  (value, emit (Event.read seg offset value) m)

/-- The instruction `wrfsbase addr` / `wrgsbase addr`. -/
def wrbase (seg : Seg) (addr : Nat) (m : Machine) : Machine :=
  emit (Event.wrbase seg addr) (set_base seg addr m)

/-- The library call `perror (msg)`. -/
def perror (msg : String) (m : Machine) : Machine :=
  emit (Event.perror msg) m

/-- The library call `abort ()`: it ends the run. -/
def abort (m : Machine) : Outcome × Machine :=
  (Outcome.aborted, emit Event.abort m)

/-! ## The program -/

/-- The descriptor `setup_ldt` builds: `memset` to zero, then the three
assignments `ud.entry_number = entry`, `ud.base_addr = (unsigned long) base`,
`ud.limit = (unsigned int) size`. -/
def setup_ldt_ud (h : Host) (entry base size : Nat) : user_desc :=
  { entry_number := entry
    base_addr := to_ulong h base % 2 ^ h.base_addr_bits
    limit := to_uint size
    seg_32bit := 0
    contents := 0
    read_exec_only := 0
    limit_in_pages := 0
    seg_not_present := 0
    useable := 0
    lm := 0 }

/-- The function `setup_ldt (entry, base, size)`; the result is the selector, or `0`. -/
def setup_ldt (h : Host) (entry base size : Nat) (m : Machine) : Nat × Machine :=
  let ud := setup_ldt_ud h entry base size
  if ud.base_addr ≠ to_ulong h base then
    (0, m)
  else
    let (errcode, m1) := sys_modify_ldt 1 ud m
    if errcode ≠ 0 then
      (0, m1)
    else
      (to_uint (ud.entry_number <<< 3) ||| 7, m1)

/-- The function `read_fs ()`. -/
def read_fs (m : Machine) : Int × Machine :=
  mov_from_seg Seg.fs 0 m

/-- The function `read_gs ()`. -/
def read_gs (m : Machine) : Int × Machine :=
  mov_from_seg Seg.gs 0 m

/-- The function `switch_fs_read (fs)`: the `mov` to `fs`, which may fault,
then `return read_fs ()`. -/
def switch_fs_read (fs : Nat) (m : Machine) : Step Int :=
  match mov_to_seg Seg.fs fs m with
  | Step.killed m1 => Step.killed m1
  | Step.done _ m1 =>
    let (value, m2) := read_fs m1
    Step.done value m2

/-- The function `test_fs (selector)`; the three values assigned to the local
`value` are discarded, as in the source. -/
def test_fs (selector : Nat) (m : Machine) : Step Unit :=
  match switch_fs_read selector m with
  | Step.killed m1 => Step.killed m1
  | Step.done _ m1 =>
    let (_, m2) := read_fs m1
    let (_, m3) := read_fs m2
    Step.done () m3

/-- The function `switch_gs_read (gs)`: the `mov` to `gs`, which may fault,
then `return read_gs ()`. -/
def switch_gs_read (gs : Nat) (m : Machine) : Step Int :=
  match mov_to_seg Seg.gs gs m with
  | Step.killed m1 => Step.killed m1
  | Step.done _ m1 =>
    let (value, m2) := read_gs m1
    Step.done value m2

/-- The function `test_gs (selector)`. -/
def test_gs (selector : Nat) (m : Machine) : Step Unit :=
  match switch_gs_read selector m with
  | Step.killed m1 => Step.killed m1
  | Step.done _ m1 =>
    let (_, m2) := read_gs m1
    let (_, m3) := read_gs m2
    Step.done () m3

/-- The function `wrfsbase_read (fsbase)`. -/
def wrfsbase_read (fsbase : Nat) (m : Machine) : Int × Machine :=
  read_fs (wrbase Seg.fs fsbase m)

/-- The function `test_wrfsbase ()`. -/
def test_wrfsbase (h : Host) (m : Machine) : Machine :=
  let (_, m1) := wrfsbase_read h.initial m
  let (_, m2) := read_fs m1
  let (_, m3) := read_fs m2
  m3

/-- The function `wrgsbase_read (gsbase)`. -/
def wrgsbase_read (gsbase : Nat) (m : Machine) : Int × Machine :=
  read_gs (wrbase Seg.gs gsbase m)

/-- The function `test_wrgsbase ()`. -/
def test_wrgsbase (h : Host) (m : Machine) : Machine :=
  let (_, m1) := wrgsbase_read h.initial m
  let (_, m2) := read_gs m1
  let (_, m3) := read_gs m2
  m3

/-- The function `arch_set_fs_read (fsbase)`. -/
def arch_set_fs_read (fsbase : Nat) (m : Machine) : Int × Machine :=
  let (errcode, m1) := sys_arch_prctl Seg.fs fsbase m
  if errcode ≠ 0 then
    (0, m1)
  else
    read_fs m1

/-- The function `test_arch_set_fs ()`. -/
def test_arch_set_fs (h : Host) (m : Machine) : Machine :=
  let (_, m1) := arch_set_fs_read h.initial m
  let (_, m2) := read_fs m1
  let (_, m3) := read_fs m2
  m3

/-- The function `arch_set_gs_read (gsbase)`. -/
def arch_set_gs_read (gsbase : Nat) (m : Machine) : Int × Machine :=
  let (errcode, m1) := sys_arch_prctl Seg.gs gsbase m
  if errcode ≠ 0 then
    (0, m1)
  else
    read_gs m1

/-- The function `test_arch_set_gs ()`. -/
def test_arch_set_gs (h : Host) (m : Machine) : Machine :=
  let (_, m1) := arch_set_gs_read h.initial m
  let (_, m2) := read_gs m1
  let (_, m3) := read_gs m2
  m3

/-- The function `main ()`.  A fault in `test_fs` or `test_gs` kills the
process, and nothing after it is run. -/
def main (h : Host) (m : Machine) : Outcome × Machine :=
  let (selector, m1) := setup_ldt h (0xb7 >>> 3) h.other sizeof_int m
  if selector = 0 then
    abort (perror "failed to setup LDT[0xb7>>3] = &other" m1)
  else
    let (selector, m2) := setup_ldt h (0xa7 >>> 3) h.initial sizeof_int m1
    if selector = 0 then
      abort (perror "failed to setup LDT[0xa7>>3] = &initial" m2)
    else
      match test_fs selector m2 with
      | Step.killed m3 => (Outcome.killed, m3)
      | Step.done _ m3 =>
        match test_gs selector m3 with
        | Step.killed m4 => (Outcome.killed, m4)
        | Step.done _ m4 =>
          let m5 := if h.HAVE_ARCH_SET_FS then test_arch_set_fs h m4 else m4
          let m6 := if h.HAVE_ARCH_SET_GS then test_arch_set_gs h m5 else m5
          let m7 := if h.HAVE_WRFSGSBASE then test_wrgsbase h (test_wrfsbase h m6) else m6
          (Outcome.exited 0, m7)

/-! ## Vocabulary of the statements -/

/-- Storing `base` into `ud.base_addr` truncates it: the stored value differs
from `(unsigned long) base`.  This is the test of `setup_ldt`. -/
def truncates (h : Host) (base : Nat) : Prop :=
  to_ulong h base % 2 ^ h.base_addr_bits ≠ to_ulong h base

instance (h : Host) (base : Nat) : Decidable (truncates h base) :=
  inferInstanceAs (Decidable (to_ulong h base % 2 ^ h.base_addr_bits ≠ to_ulong h base))

/-- A descriptor-table setup for `base`, started in state `m`, succeeds: the
address is stored without truncation and the kernel answers `0`. -/
def setup_succeeds (h : Host) (base : Nat) (m : Machine) : Prop :=
  ¬ truncates h base ∧ m.replies m.ncalls = 0

instance (h : Host) (base : Nat) (m : Machine) : Decidable (setup_succeeds h base m) :=
  inferInstanceAs (Decidable (¬ truncates h base ∧ m.replies m.ncalls = 0))

/-- The statements of `main` that follow `test_gs`: the conditionally compiled
probes and `return 0`.  This is the part of `main` in which `arch_prctl` is
called. -/
def main_tail (h : Host) (m : Machine) : Outcome × Machine :=
  let m5 := if h.HAVE_ARCH_SET_FS then test_arch_set_fs h m else m
  let m6 := if h.HAVE_ARCH_SET_GS then test_arch_set_gs h m5 else m5
  let m7 := if h.HAVE_WRFSGSBASE then test_wrgsbase h (test_wrfsbase h m6) else m6
  (Outcome.exited 0, m7)

/-- The statements of `main` that follow the two setups, run with the selector
the second setup returned: `test_fs`, `test_gs`, then `main_tail`. -/
def main_probes (h : Host) (selector : Nat) (m : Machine) : Outcome × Machine :=
  match test_fs selector m with
  | Step.killed m3 => (Outcome.killed, m3)
  | Step.done _ m3 =>
    match test_gs selector m3 with
    | Step.killed m4 => (Outcome.killed, m4)
    | Step.done _ m4 => main_tail h m4

/-- The state in which `test_fs (selector)` or `test_gs (selector)` leaves `m`
when the selector names a descriptor with base `base`: the register holds the
low 16 bits of the selector and that base, and the load and the three reads are
on the trace. -/
def after_test (seg : Seg) (selector base : Nat) (m : Machine) : Machine :=
  let value := load_int m.mem (base + 0)
  let m1 := set_selector seg (selector % 2 ^ 16) (set_base seg base m)
  { m1 with trace := m.trace ++ [Event.load seg selector, Event.read seg 0 value,
      Event.read seg 0 value, Event.read seg 0 value] }

/-- The event is a `modify_ldt` call. -/
def is_modify_ldt : Event → Bool
  | Event.modify_ldt _ _ _ => true
  | _ => false

/-- The descriptor table that the `modify_ldt` calls among `evs` make of `ldt`. -/
def ldt_after (ldt : List user_desc) : List Event → List user_desc
  | [] => ldt
  | Event.modify_ldt func ud ret :: evs =>
      ldt_after (if func = 1 ∧ ret = 0 then ud :: ldt else ldt) evs
  | _ :: evs => ldt_after ldt evs

/-- From `m` to `m1` the program only added events, none of them a
`modify_ldt` call, and the descriptor table and memory stayed as they were. -/
def quiet (m m1 : Machine) : Prop :=
  ∃ evs, m1.trace = m.trace ++ evs ∧ (∀ e ∈ evs, is_modify_ldt e = false)
    ∧ m1.ldt = m.ldt ∧ m1.mem = m.mem

/-! ## Concrete runs -/

/-- A 64-bit host whose `ud.base_addr` is an `unsigned int`, with every
capability flag set. -/
def host64 : Host :=
  { long_bits := 64, base_addr_bits := 32,
    HAVE_ARCH_SET_FS := true, HAVE_ARCH_SET_GS := true, HAVE_WRFSGSBASE := true,
    initial := 4096, other := 4100, twentythree := 4104 }

/-- Memory holding `initial = 42` at 4096, `other = -42` at 4100 and
`twentythree = 23` at 4104. -/
def mem0 : Nat → Nat := fun a =>
  if a = 4096 then 42
  else if a = 4100 then 214
  else if a = 4101 ∨ a = 4102 ∨ a = 4103 then 255
  else if a = 4104 then 23
  else 0

/-- A freshly started process whose kernel answers the `n`-th system call with `r n`. -/
def mach (r : Nat → Int) : Machine :=
  { ldt := [], gdt := [], fs_base := 0, gs_base := 0, fs_sel := 0, gs_sel := 0,
    mem := mem0, replies := r, ncalls := 0, trace := [] }

/-- A kernel that lets every call succeed. -/
def all_ok : Nat → Int := fun _ => 0

/-- A kernel that refuses the `k`-th call with `-1` and lets the others succeed. -/
def fail_at (k : Nat) : Nat → Int := fun n => if n = k then -1 else 0

/-- The state in which the two setups of `main` leave `m`. -/
def after_setups (h : Host) (m : Machine) : Machine :=
  (setup_ldt h (0xa7 >>> 3) h.initial sizeof_int
    (setup_ldt h (0xb7 >>> 3) h.other sizeof_int m).2).2

/-! ## Auxiliary facts -/

theorem or_seven (a : Nat) : 8 * a ||| 7 = 8 * a + 7 :=
  (Nat.mul_add_lt_is_or (show 7 < 2 ^ 3 by decide) a).symm

theorem and_seven (x : Nat) : x &&& 7 = x % 8 :=
  Nat.and_pow_two_sub_one_eq_mod x 3

theorem or_seven_ne_zero (x : Nat) : x ||| 7 ≠ 0 := by
  intro h0
  have h1 : (x ||| 7) % 2 = 1 := Nat.or_mod_two_eq_one.mpr (Or.inr rfl)
  rw [h0] at h1
  exact absurd h1 (by decide)

theorem or_seven_and_seven (x : Nat) : (x ||| 7) &&& 7 = 7 := by
  rw [Nat.and_distrib_right, and_seven]
  have hlt : x % 8 < 8 := Nat.mod_lt x (by decide)
  generalize x % 8 = r at hlt
  interval_cases r <;> rfl

theorem seven_le_or_seven (x : Nat) : 7 ≤ x ||| 7 := by
  have h1 := or_seven_and_seven x
  rw [and_seven] at h1
  omega

/-- The selector of a small entry number, computed without overflow. -/
theorem selector_small (entry : Nat) (he : entry < 2 ^ 29) :
    to_uint (entry <<< 3) ||| 7 = 8 * entry + 7 := by
  have h1 : entry <<< 3 = 8 * entry := by rw [Nat.shiftLeft_eq]; omega
  have h2 : to_uint (8 * entry) = 8 * entry := by
    unfold to_uint; apply Nat.mod_eq_of_lt; omega
  rw [h1, h2, or_seven]

/-- The function `setup_ldt`, branch by branch. -/
theorem setup_ldt_eq (h : Host) (entry base size : Nat) (m : Machine) :
    setup_ldt h entry base size m =
      if truncates h base then (0, m)
      else if m.replies m.ncalls ≠ 0 then
        (0, (sys_modify_ldt 1 (setup_ldt_ud h entry base size) m).2)
      else
        (to_uint (entry <<< 3) ||| 7,
          (sys_modify_ldt 1 (setup_ldt_ud h entry base size) m).2) := by
  rfl

theorem setup_ldt_of_truncates (h : Host) (entry base size : Nat) (m : Machine)
    (ht : truncates h base) : setup_ldt h entry base size m = (0, m) := by
  rw [setup_ldt_eq, if_pos ht]

theorem setup_ldt_of_refused (h : Host) (entry base size : Nat) (m : Machine)
    (ht : ¬ truncates h base) (hr : m.replies m.ncalls ≠ 0) :
    setup_ldt h entry base size m
      = (0, (sys_modify_ldt 1 (setup_ldt_ud h entry base size) m).2) := by
  rw [setup_ldt_eq, if_neg ht, if_pos hr]

theorem setup_ldt_of_succeeds (h : Host) (entry base size : Nat) (m : Machine)
    (hs : setup_succeeds h base m) :
    setup_ldt h entry base size m
      = (to_uint (entry <<< 3) ||| 7,
          (sys_modify_ldt 1 (setup_ldt_ud h entry base size) m).2) := by
  rw [setup_ldt_eq, if_neg hs.1, if_neg (not_not.mpr hs.2)]

theorem setup_ldt_fst_eq_zero (h : Host) (entry base size : Nat) (m : Machine) :
    (setup_ldt h entry base size m).1 = 0 ↔ ¬ setup_succeeds h base m := by
  unfold setup_succeeds
  rw [setup_ldt_eq]
  by_cases ht : truncates h base
  · simp [ht]
  · by_cases hr : m.replies m.ncalls = 0
    · simp [ht, hr, or_seven_ne_zero]
    · simp [ht, hr]

/-- The state after a `modify_ldt` call. -/
theorem sys_modify_ldt_snd (ud : user_desc) (m : Machine) :
    (sys_modify_ldt 1 ud m).2.trace
        = m.trace ++ [Event.modify_ldt 1 ud (m.replies m.ncalls)]
    ∧ (sys_modify_ldt 1 ud m).2.ldt
        = (if m.replies m.ncalls = 0 then ud :: m.ldt else m.ldt)
    ∧ (sys_modify_ldt 1 ud m).2.mem = m.mem
    ∧ (sys_modify_ldt 1 ud m).2.replies = m.replies
    ∧ (sys_modify_ldt 1 ud m).2.ncalls = m.ncalls + 1 := by
  simp [sys_modify_ldt, emit]

/-- The descriptor built from a pointer that is stored without truncation. -/
theorem setup_ldt_ud_eq (h : Host) (entry base size : Nat)
    (hp : base < 2 ^ h.long_bits) (ht : ¬ truncates h base) :
    setup_ldt_ud h entry base size
      = { entry_number := entry, base_addr := base, limit := size % 2 ^ 32,
          seg_32bit := 0, contents := 0, read_exec_only := 0, limit_in_pages := 0,
          seg_not_present := 0, useable := 0, lm := 0 } := by
  have h1 : to_ulong h base = base := Nat.mod_eq_of_lt hp
  have h2 : to_ulong h base % 2 ^ h.base_addr_bits = to_ulong h base := not_not.mp ht
  rw [h1] at h2
  simp only [setup_ldt_ud, to_uint, h1, h2]

theorem quiet_refl (m : Machine) : quiet m m :=
  ⟨[], by simp, by simp, rfl, rfl⟩

theorem quiet_trans {a b c : Machine} (hab : quiet a b) (hbc : quiet b c) : quiet a c := by
  obtain ⟨e1, ht1, hn1, hl1, hm1⟩ := hab
  obtain ⟨e2, ht2, hn2, hl2, hm2⟩ := hbc
  refine ⟨e1 ++ e2, ?_, ?_, ?_, ?_⟩
  · rw [ht2, ht1, List.append_assoc]
  · intro e he
    rcases List.mem_append.mp he with h1 | h2
    · exact hn1 e h1
    · exact hn2 e h2
  · rw [hl2, hl1]
  · rw [hm2, hm1]

theorem quiet_mov_from_seg (seg : Seg) (offset : Nat) (m : Machine) :
    quiet m (mov_from_seg seg offset m).2 :=
  ⟨[Event.read seg offset (load_int m.mem (get_base seg m + offset))], rfl,
    by simp [is_modify_ldt], rfl, rfl⟩

theorem quiet_wrbase (seg : Seg) (addr : Nat) (m : Machine) :
    quiet m (wrbase seg addr m) := by
  refine ⟨[Event.wrbase seg addr], ?_, by simp [is_modify_ldt], ?_, ?_⟩ <;>
  cases seg <;> rfl

theorem quiet_sys_arch_prctl (seg : Seg) (addr : Nat) (m : Machine) :
    quiet m (sys_arch_prctl seg addr m).2 := by
  refine ⟨[Event.arch_prctl seg addr (m.replies m.ncalls)], ?_, by simp [is_modify_ldt], ?_, ?_⟩ <;>
  cases seg <;> simp only [sys_arch_prctl, emit, set_base] <;> split <;> rfl

theorem quiet_read_fs (m : Machine) : quiet m (read_fs m).2 := quiet_mov_from_seg _ _ m

theorem quiet_read_gs (m : Machine) : quiet m (read_gs m).2 := quiet_mov_from_seg _ _ m

theorem quiet_test_wrfsbase (h : Host) (m : Machine) : quiet m (test_wrfsbase h m) :=
  quiet_trans (quiet_trans (quiet_trans (quiet_wrbase _ _ m) (quiet_read_fs _))
    (quiet_read_fs _)) (quiet_read_fs _)

theorem quiet_test_wrgsbase (h : Host) (m : Machine) : quiet m (test_wrgsbase h m) :=
  quiet_trans (quiet_trans (quiet_trans (quiet_wrbase _ _ m) (quiet_read_gs _))
    (quiet_read_gs _)) (quiet_read_gs _)

/-- The function `arch_set_fs_read`, branch by branch. -/
theorem arch_set_fs_read_eq (a : Nat) (m : Machine) :
    arch_set_fs_read a m =
      if m.replies m.ncalls ≠ 0 then (0, (sys_arch_prctl Seg.fs a m).2)
      else read_fs (sys_arch_prctl Seg.fs a m).2 := by
  rfl

theorem quiet_arch_set_fs_read (a : Nat) (m : Machine) : quiet m (arch_set_fs_read a m).2 := by
  rw [arch_set_fs_read_eq]
  by_cases hr : m.replies m.ncalls ≠ 0
  · rw [if_pos hr]; exact quiet_sys_arch_prctl _ _ m
  · rw [if_neg hr]
    exact quiet_trans (quiet_sys_arch_prctl _ _ m) (quiet_read_fs _)

/-- The function `arch_set_gs_read`, branch by branch. -/
theorem arch_set_gs_read_eq (a : Nat) (m : Machine) :
    arch_set_gs_read a m =
      if m.replies m.ncalls ≠ 0 then (0, (sys_arch_prctl Seg.gs a m).2)
      else read_gs (sys_arch_prctl Seg.gs a m).2 := by
  rfl

theorem quiet_arch_set_gs_read (a : Nat) (m : Machine) : quiet m (arch_set_gs_read a m).2 := by
  rw [arch_set_gs_read_eq]
  by_cases hr : m.replies m.ncalls ≠ 0
  · rw [if_pos hr]; exact quiet_sys_arch_prctl _ _ m
  · rw [if_neg hr]
    exact quiet_trans (quiet_sys_arch_prctl _ _ m) (quiet_read_gs _)

theorem quiet_test_arch_set_fs (h : Host) (m : Machine) : quiet m (test_arch_set_fs h m) :=
  quiet_trans (quiet_trans (quiet_arch_set_fs_read _ m) (quiet_read_fs _)) (quiet_read_fs _)

theorem quiet_test_arch_set_gs (h : Host) (m : Machine) : quiet m (test_arch_set_gs h m) :=
  quiet_trans (quiet_trans (quiet_arch_set_gs_read _ m) (quiet_read_gs _)) (quiet_read_gs _)

/-- The conditionally compiled probes of `main`, after `test_fs` and `test_gs`. -/
theorem quiet_optional (h : Host) (m : Machine) :
    quiet m
      (if h.HAVE_WRFSGSBASE then
        test_wrgsbase h (test_wrfsbase h
          (if h.HAVE_ARCH_SET_GS then
            test_arch_set_gs h (if h.HAVE_ARCH_SET_FS then test_arch_set_fs h m else m)
          else (if h.HAVE_ARCH_SET_FS then test_arch_set_fs h m else m)))
      else
        (if h.HAVE_ARCH_SET_GS then
            test_arch_set_gs h (if h.HAVE_ARCH_SET_FS then test_arch_set_fs h m else m)
          else (if h.HAVE_ARCH_SET_FS then test_arch_set_fs h m else m))) := by
  have h3 : quiet m (if h.HAVE_ARCH_SET_FS then test_arch_set_fs h m else m) := by
    split
    · exact quiet_test_arch_set_fs h m
    · exact quiet_refl m
  have h4 : quiet m (if h.HAVE_ARCH_SET_GS then
            test_arch_set_gs h (if h.HAVE_ARCH_SET_FS then test_arch_set_fs h m else m)
          else (if h.HAVE_ARCH_SET_FS then test_arch_set_fs h m else m)) := by
    split
    · exact quiet_trans h3 (quiet_test_arch_set_gs h _)
    · exact h3
  split
  · exact quiet_trans (quiet_trans h4 (quiet_test_wrfsbase h _)) (quiet_test_wrgsbase h _)
  · exact h4

/-- The function `main`, branch by branch. -/
theorem main_eq (h : Host) (m : Machine) :
    main h m =
      if ¬ setup_succeeds h h.other m then
        abort (perror "failed to setup LDT[0xb7>>3] = &other"
          (setup_ldt h (0xb7 >>> 3) h.other sizeof_int m).2)
      else if ¬ setup_succeeds h h.initial (setup_ldt h (0xb7 >>> 3) h.other sizeof_int m).2 then
        abort (perror "failed to setup LDT[0xa7>>3] = &initial"
          (setup_ldt h (0xa7 >>> 3) h.initial sizeof_int
            (setup_ldt h (0xb7 >>> 3) h.other sizeof_int m).2).2)
      else
        main_probes h 0xa7
          (setup_ldt h (0xa7 >>> 3) h.initial sizeof_int
            (setup_ldt h (0xb7 >>> 3) h.other sizeof_int m).2).2 := by
  have e1 := setup_ldt_fst_eq_zero h (0xb7 >>> 3) h.other sizeof_int m
  have e2 := setup_ldt_fst_eq_zero h (0xa7 >>> 3) h.initial sizeof_int
    (setup_ldt h (0xb7 >>> 3) h.other sizeof_int m).2
  unfold main
  by_cases h1 : setup_succeeds h h.other m
  · have n1 : (setup_ldt h (0xb7 >>> 3) h.other sizeof_int m).1 ≠ 0 := by
      rw [Ne, e1]; exact not_not.mpr h1
    by_cases h2 : setup_succeeds h h.initial (setup_ldt h (0xb7 >>> 3) h.other sizeof_int m).2
    · have n2 : (setup_ldt h (0xa7 >>> 3) h.initial sizeof_int
          (setup_ldt h (0xb7 >>> 3) h.other sizeof_int m).2).1 ≠ 0 := by
        rw [Ne, e2]; exact not_not.mpr h2
      have v2 : (setup_ldt h (0xa7 >>> 3) h.initial sizeof_int
          (setup_ldt h (0xb7 >>> 3) h.other sizeof_int m).2).1 = 0xa7 := by
        rw [setup_ldt_of_succeeds _ _ _ _ _ h2]; rfl
      have n3 : ¬ ((0xa7 : Nat) = 0) := by decide
      simp only [n1, h1, h2, if_false, not_true_eq_false, v2, n3]
      rfl
    · have z2 := e2.mpr h2
      simp only [n1, z2, h1, h2, if_false, if_true, not_true_eq_false, not_false_eq_true]
  · have z1 := e1.mpr h1
    simp only [z1, h1, if_true, not_false_eq_true]

/-- The function `main`, branch by branch, with the constants evaluated:
`0xb7 >> 3 = 22`, `0xa7 >> 3 = 20`, `sizeof (int) = 4`. -/
theorem main_eq_norm (h : Host) (m : Machine) :
    main h m =
      if ¬ setup_succeeds h h.other m then
        abort (perror "failed to setup LDT[0xb7>>3] = &other" (setup_ldt h 22 h.other 4 m).2)
      else if ¬ setup_succeeds h h.initial (setup_ldt h 22 h.other 4 m).2 then
        abort (perror "failed to setup LDT[0xa7>>3] = &initial"
          (setup_ldt h 20 h.initial 4 (setup_ldt h 22 h.other 4 m).2).2)
      else
        main_probes h 0xa7 (setup_ldt h 20 h.initial 4 (setup_ldt h 22 h.other 4 m).2).2 :=
  main_eq h m

/-- Everything `main` does after `test_gs` is quiet, and it ends in `return 0`. -/
theorem quiet_main_tail (h : Host) (m : Machine) : quiet m (main_tail h m).2 :=
  quiet_optional h m

theorem main_tail_fst (h : Host) (m : Machine) : (main_tail h m).1 = Outcome.exited 0 := rfl

/-- A selector with bit 2 set is not a null selector. -/
theorem four_le_of_and_four {x : Nat} (hx : x &&& 4 = 4) : 4 ≤ x := by
  have hle : x &&& 4 ≤ x := Nat.and_le_left
  omega

/-- A selector into the local table whose slot holds a loadable descriptor. -/
theorem selector_descriptor_local (m : Machine) (sel : Nat) (d : user_desc)
    (hti : sel &&& 4 = 4) (hd : table_lookup m.ldt (sel >>> 3) = some d)
    (hl : loadable d = true) : selector_descriptor m sel = some d := by
  simp [selector_descriptor, hti, hd, hl]

/-- A selector into the local table whose slot is empty. -/
theorem selector_descriptor_empty (m : Machine) (sel : Nat)
    (hti : sel &&& 4 = 4) (hd : table_lookup m.ldt (sel >>> 3) = none) :
    selector_descriptor m sel = none := by
  simp [selector_descriptor, hti, hd]

theorem test_fs_of_descriptor (selector : Nat) (m : Machine) (d : user_desc)
    (h4 : 4 ≤ selector % 2 ^ 16)
    (hd : selector_descriptor m (selector % 2 ^ 16) = some d) :
    test_fs selector m = Step.done () (after_test Seg.fs selector d.base_addr m) := by
  simp only [test_fs, switch_fs_read, mov_to_seg, Nat.not_lt.mpr h4, if_false, hd]
  simp [read_fs, mov_from_seg, emit, set_base, set_selector, get_base, after_test]

theorem test_gs_of_descriptor (selector : Nat) (m : Machine) (d : user_desc)
    (h4 : 4 ≤ selector % 2 ^ 16)
    (hd : selector_descriptor m (selector % 2 ^ 16) = some d) :
    test_gs selector m = Step.done () (after_test Seg.gs selector d.base_addr m) := by
  simp only [test_gs, switch_gs_read, mov_to_seg, Nat.not_lt.mpr h4, if_false, hd]
  simp [read_gs, mov_from_seg, emit, set_base, set_selector, get_base, after_test]

theorem test_fs_of_empty (selector : Nat) (m : Machine)
    (h4 : 4 ≤ selector % 2 ^ 16)
    (hd : selector_descriptor m (selector % 2 ^ 16) = none) :
    test_fs selector m = Step.killed (emit (Event.load Seg.fs selector) m) := by
  simp only [test_fs, switch_fs_read, mov_to_seg, Nat.not_lt.mpr h4, if_false, hd]

theorem test_gs_of_empty (selector : Nat) (m : Machine)
    (h4 : 4 ≤ selector % 2 ^ 16)
    (hd : selector_descriptor m (selector % 2 ^ 16) = none) :
    test_gs selector m = Step.killed (emit (Event.load Seg.gs selector) m) := by
  simp only [test_gs, switch_gs_read, mov_to_seg, Nat.not_lt.mpr h4, if_false, hd]

/-- What `after_test` leaves unchanged, and what it adds to the trace. -/
theorem after_test_fields (seg : Seg) (selector base : Nat) (m : Machine) :
    (after_test seg selector base m).ldt = m.ldt
    ∧ (after_test seg selector base m).mem = m.mem
    ∧ (after_test seg selector base m).trace
        = m.trace ++ [Event.load seg selector,
            Event.read seg 0 (load_int m.mem (base + 0)),
            Event.read seg 0 (load_int m.mem (base + 0)),
            Event.read seg 0 (load_int m.mem (base + 0))] := by
  cases seg <;> exact ⟨rfl, rfl, rfl⟩

theorem quiet_after_test (seg : Seg) (selector base : Nat) (m : Machine) :
    quiet m (after_test seg selector base m) := by
  obtain ⟨hl, hm, ht⟩ := after_test_fields seg selector base m
  exact ⟨_, ht, by simp [is_modify_ldt], hl, hm⟩

/-- The statements of `main` after the two setups, when slot 20 of the local
table holds a loadable descriptor first in the table: both loads of `0xa7`
succeed. -/
theorem main_probes_a7 (h : Host) (m : Machine) (ud : user_desc) (rest : List user_desc)
    (hl : m.ldt = ud :: rest) (he : ud.entry_number = 20) (hload : loadable ud = true) :
    main_probes h 0xa7 m
      = main_tail h (after_test Seg.gs 0xa7 ud.base_addr
          (after_test Seg.fs 0xa7 ud.base_addr m)) := by
  have h16 : (0xa7 : Nat) % 2 ^ 16 = 0xa7 := by decide
  have h4 : 4 ≤ (0xa7 : Nat) % 2 ^ 16 := by decide
  have hti : ((0xa7 : Nat) % 2 ^ 16) &&& 4 = 4 := by decide
  have h20 : ((0xa7 : Nat) % 2 ^ 16) >>> 3 = 20 := by decide
  have look : ∀ m1 : Machine, m1.ldt = m.ldt →
      selector_descriptor m1 ((0xa7 : Nat) % 2 ^ 16) = some ud := by
    intro m1 e
    apply selector_descriptor_local m1 _ ud hti _ hload
    rw [h20, e, hl]
    simp [table_lookup, List.find?, he]
  have e1 := test_fs_of_descriptor 0xa7 m ud h4 (look m rfl)
  have e2 := test_gs_of_descriptor 0xa7 (after_test Seg.fs 0xa7 ud.base_addr m) ud h4
    (look _ (after_test_fields Seg.fs 0xa7 ud.base_addr m).1)
  simp only [main_probes, e1, e2]

/-- A run of `main` in which both setups succeed: the two descriptors are
installed, both loads of `0xa7` succeed, and the run goes on to `main_tail`. -/
theorem main_of_succeeds (h : Host) (m : Machine)
    (h1 : setup_succeeds h h.other m)
    (h2 : setup_succeeds h h.initial (setup_ldt h 22 h.other 4 m).2) :
    ∃ m2 : Machine,
      m2.trace = m.trace ++ [Event.modify_ldt 1 (setup_ldt_ud h 22 h.other 4) 0,
        Event.modify_ldt 1 (setup_ldt_ud h 20 h.initial 4) 0]
      ∧ m2.ldt = setup_ldt_ud h 20 h.initial 4 :: setup_ldt_ud h 22 h.other 4 :: m.ldt
      ∧ m2.mem = m.mem
      ∧ main h m
          = main_tail h (after_test Seg.gs 0xa7 (setup_ldt_ud h 20 h.initial 4).base_addr
              (after_test Seg.fs 0xa7 (setup_ldt_ud h 20 h.initial 4).base_addr m2)) := by
  rw [main_eq_norm, if_neg (not_not.mpr h1), if_neg (not_not.mpr h2)]
  rw [setup_ldt_of_succeeds _ _ _ _ _ h1] at h2 ⊢
  obtain ⟨tr1, ld1, me1, -, -⟩ := sys_modify_ldt_snd (setup_ldt_ud h 22 h.other 4) m
  rw [h1.2] at tr1
  rw [if_pos h1.2] at ld1
  generalize (sys_modify_ldt 1 (setup_ldt_ud h 22 h.other 4) m).2 = m1 at tr1 ld1 me1 h2 ⊢
  rw [setup_ldt_of_succeeds _ _ _ _ _ h2]
  obtain ⟨tr2, ld2, me2, -, -⟩ := sys_modify_ldt_snd (setup_ldt_ud h 20 h.initial 4) m1
  rw [h2.2] at tr2
  rw [if_pos h2.2] at ld2
  generalize (sys_modify_ldt 1 (setup_ldt_ud h 20 h.initial 4) m1).2 = m2 at tr2 ld2 me2 ⊢
  refine ⟨m2, ?_, ?_, ?_, ?_⟩
  · rw [tr2, tr1]; simp
  · rw [ld2, ld1]
  · rw [me2, me1]
  · exact main_probes_a7 h m2 _ _ ld2 rfl rfl

/-- With slot 20 installed, everything `main` does after the two setups is quiet. -/
theorem quiet_probes_a7 (h : Host) (m : Machine) (ud : user_desc) (rest : List user_desc)
    (hl : m.ldt = ud :: rest) (he : ud.entry_number = 20) (hload : loadable ud = true) :
    quiet m (main_probes h 0xa7 m).2 := by
  rw [main_probes_a7 h m ud rest hl he hload]
  exact quiet_trans (quiet_trans (quiet_after_test _ _ _ m) (quiet_after_test _ _ _ _))
    (quiet_main_tail h _)
/-! ## The claims -/

/-- C1: in every run of `main`, if both `setup_ldt` calls succeed (entry
`0xb7 >> 3` for `&other`, then entry `0xa7 >> 3` for `&initial`) `main` returns
exit code 0; if either setup fails, `main` calls `abort` (the last thing the
program does) and does not return 0. -/
theorem main_exit_status (h : Host) (m : Machine) :
    (setup_succeeds h h.other m →
      setup_succeeds h h.initial (setup_ldt h (0xb7 >>> 3) h.other sizeof_int m).2 →
        (main h m).1 = Outcome.exited 0)
    ∧ (¬ setup_succeeds h h.other m
        ∨ ¬ setup_succeeds h h.initial (setup_ldt h (0xb7 >>> 3) h.other sizeof_int m).2 →
        (main h m).1 = Outcome.aborted
        ∧ (main h m).1 ≠ Outcome.exited 0
        ∧ (main h m).2.trace.getLast? = some Event.abort) := by
  rw [main_eq]
  constructor
  · intro h1 h2
    obtain ⟨m2, -, -, -, e⟩ := main_of_succeeds h m h1 h2
    rw [← main_eq, e]
    rfl
  · intro hf
    by_cases h1 : setup_succeeds h h.other m
    · have h2 := hf.resolve_left (not_not.mpr h1)
      rw [if_neg (not_not.mpr h1), if_pos h2]
      simp [abort, emit, perror]
    · rw [if_pos h1]
      simp [abort, emit, perror]

/-- Witness for C1: a run in which both setups succeed exits with 0, and a run
in which the kernel refuses the second descriptor aborts. -/
theorem main_exit_status_witness :
    (setup_succeeds host64 host64.other (mach all_ok)
      ∧ setup_succeeds host64 host64.initial
          (setup_ldt host64 (0xb7 >>> 3) host64.other sizeof_int (mach all_ok)).2
      ∧ (main host64 (mach all_ok)).1 = Outcome.exited 0)
    ∧ (¬ setup_succeeds host64 host64.initial
          (setup_ldt host64 (0xb7 >>> 3) host64.other sizeof_int (mach (fail_at 1))).2
      ∧ (main host64 (mach (fail_at 1))).1 = Outcome.aborted) :=
  ⟨⟨by decide, by decide,
      (main_exit_status host64 (mach all_ok)).1 (by decide) (by decide)⟩,
    ⟨by decide,
      ((main_exit_status host64 (mach (fail_at 1))).2 (Or.inr (by decide))).1⟩⟩

/-- C3: for every base address and every width of `ud.base_addr`, if storing
the base into `base_addr` truncates it, `setup_ldt` returns 0 and leaves the
machine as it found it: no `modify_ldt` call is made (the trace and the call
count are unchanged) and the descriptor table is unchanged. -/
theorem setup_ldt_truncated (h : Host) (entry base size : Nat) (m : Machine)
    (htrunc : (setup_ldt_ud h entry base size).base_addr ≠ to_ulong h base) :
    setup_ldt h entry base size m = (0, m)
    ∧ (setup_ldt h entry base size m).2.trace = m.trace
    ∧ (setup_ldt h entry base size m).2.ncalls = m.ncalls
    ∧ (setup_ldt h entry base size m).2.ldt = m.ldt := by
  have e : setup_ldt h entry base size m = (0, m) := setup_ldt_of_truncates h entry base size m htrunc
  rw [e]
  exact ⟨rfl, rfl, rfl, rfl⟩

/-- Witness for C3: on a 64-bit host with a 32-bit `base_addr`, an address
above 4 GiB is truncated and nothing is installed. -/
theorem setup_ldt_truncated_witness :
    (setup_ldt_ud host64 22 (2 ^ 32 + 4096) 4).base_addr ≠ to_ulong host64 (2 ^ 32 + 4096)
    ∧ setup_ldt host64 22 (2 ^ 32 + 4096) 4 (mach all_ok) = (0, mach all_ok) :=
  ⟨by decide, (setup_ldt_truncated host64 22 (2 ^ 32 + 4096) 4 (mach all_ok) (by decide)).1⟩

/-- Counterexample to C5: in a process whose local descriptor table is empty,
`test_fs (0x0f)` and `test_gs (0x0f)` load the selector and perform no read at
all: the selector names slot 1 of the local table, which holds no descriptor,
so the `mov` faults and the process is killed there. -/
theorem test_fs_gs_killed_at_load :
    (∃ m1, test_fs 0x0f (mach all_ok) = Step.killed m1
      ∧ m1.trace = [Event.load Seg.fs 0x0f])
    ∧ (∃ m1, test_gs 0x0f (mach all_ok) = Step.killed m1
      ∧ m1.trace = [Event.load Seg.gs 0x0f]) :=
  ⟨⟨_, rfl, rfl⟩, ⟨_, rfl, rfl⟩⟩

/-- C5, amended: over a machine in which a read through a segment returns the
contents at that segment's base plus the offset, for every selector whose low
16 bits name a slot of the local descriptor table that holds a loadable
descriptor, `test_fs (selector)` performs exactly one load of that selector into
`fs` followed by exactly three reads at offset 0 through `fs`, each returning
the `int` at the base of that descriptor, and nothing else: it only leaves the
low 16 bits of the selector and that base in `fs`.  `test_gs (selector)` does
the same with `gs`.  For a selector that names an empty slot of the local table
the `mov` faults: the process is killed at the load and no read is performed. -/
theorem test_fs_gs_operations (selector : Nat) (m : Machine)
    (hti : (selector % 2 ^ 16) &&& 4 = 4) :
    (∀ d, table_lookup m.ldt ((selector % 2 ^ 16) >>> 3) = some d → loadable d = true →
      test_fs selector m
        = Step.done ()
            { m with
              fs_sel := selector % 2 ^ 16
              fs_base := d.base_addr
              trace := m.trace ++ [Event.load Seg.fs selector,
                Event.read Seg.fs 0 (load_int m.mem (d.base_addr + 0)),
                Event.read Seg.fs 0 (load_int m.mem (d.base_addr + 0)),
                Event.read Seg.fs 0 (load_int m.mem (d.base_addr + 0))] }
      ∧ test_gs selector m
        = Step.done ()
            { m with
              gs_sel := selector % 2 ^ 16
              gs_base := d.base_addr
              trace := m.trace ++ [Event.load Seg.gs selector,
                Event.read Seg.gs 0 (load_int m.mem (d.base_addr + 0)),
                Event.read Seg.gs 0 (load_int m.mem (d.base_addr + 0)),
                Event.read Seg.gs 0 (load_int m.mem (d.base_addr + 0))] })
    ∧ (table_lookup m.ldt ((selector % 2 ^ 16) >>> 3) = none →
      test_fs selector m
        = Step.killed { m with trace := m.trace ++ [Event.load Seg.fs selector] }
      ∧ test_gs selector m
        = Step.killed { m with trace := m.trace ++ [Event.load Seg.gs selector] }) := by
  have h4 := four_le_of_and_four hti
  constructor
  · intro d hd hl
    have hs := selector_descriptor_local m _ d hti hd hl
    rw [test_fs_of_descriptor selector m d h4 hs, test_gs_of_descriptor selector m d h4 hs]
    exact ⟨rfl, rfl⟩
  · intro hd
    have hs := selector_descriptor_empty m _ hti hd
    rw [test_fs_of_empty selector m h4 hs, test_gs_of_empty selector m h4 hs]
    exact ⟨rfl, rfl⟩

/-- Witness for C5 as amended: after the two setups of `main` on the 64-bit
host, the selector `0x100a7`, whose low 16 bits are `0xa7`, names slot 20, and
`test_fs` reads `initial` three times; in a fresh process slot 1 is empty. -/
theorem test_fs_gs_operations_witness :
    ((0x100a7 % 2 ^ 16) &&& 4 = 4
      ∧ table_lookup (after_setups host64 (mach all_ok)).ldt ((0x100a7 % 2 ^ 16) >>> 3)
          = some (setup_ldt_ud host64 20 host64.initial 4)
      ∧ loadable (setup_ldt_ud host64 20 host64.initial 4) = true
      ∧ test_fs 0x100a7 (after_setups host64 (mach all_ok))
        = Step.done ()
            { after_setups host64 (mach all_ok) with
              fs_sel := 0x100a7 % 2 ^ 16
              fs_base := (setup_ldt_ud host64 20 host64.initial 4).base_addr
              trace := (after_setups host64 (mach all_ok)).trace
                ++ [Event.load Seg.fs 0x100a7,
                  Event.read Seg.fs 0 (load_int (after_setups host64 (mach all_ok)).mem
                    ((setup_ldt_ud host64 20 host64.initial 4).base_addr + 0)),
                  Event.read Seg.fs 0 (load_int (after_setups host64 (mach all_ok)).mem
                    ((setup_ldt_ud host64 20 host64.initial 4).base_addr + 0)),
                  Event.read Seg.fs 0 (load_int (after_setups host64 (mach all_ok)).mem
                    ((setup_ldt_ud host64 20 host64.initial 4).base_addr + 0))] }
      ∧ load_int (after_setups host64 (mach all_ok)).mem
          ((setup_ldt_ud host64 20 host64.initial 4).base_addr + 0) = 42)
    ∧ ((0x0f % 2 ^ 16) &&& 4 = 4
      ∧ table_lookup (mach all_ok).ldt ((0x0f % 2 ^ 16) >>> 3) = none
      ∧ test_gs 0x0f (mach all_ok)
        = Step.killed { mach all_ok with
            trace := (mach all_ok).trace ++ [Event.load Seg.gs 0x0f] }) :=
  ⟨⟨by decide, by decide, by decide,
      ((test_fs_gs_operations 0x100a7 (after_setups host64 (mach all_ok)) (by decide)).1
        (setup_ldt_ud host64 20 host64.initial 4) (by decide) (by decide)).1,
      by decide⟩,
    ⟨by decide, by decide,
      ((test_fs_gs_operations 0x0f (mach all_ok) (by decide)).2 (by decide)).2⟩⟩

/-- C8: `setup_ldt` returns 0 if and only if the setup failed.  For every entry
number, base and size, the result is 0 exactly when the base address was
truncated or the `modify_ldt` call returned non-zero, and it is non-zero (at
least 7) exactly when the setup succeeded; so the test `selector == 0u` in
`main` is never met after a successful setup. -/
theorem setup_ldt_zero_iff_failed (h : Host) (entry base size : Nat) (m : Machine) :
    ((setup_ldt h entry base size m).1 = 0
      ↔ (truncates h base ∨ m.replies m.ncalls ≠ 0))
    ∧ ((setup_ldt h entry base size m).1 ≠ 0 ↔ setup_succeeds h base m)
    ∧ (7 ≤ (setup_ldt h entry base size m).1 ↔ setup_succeeds h base m) := by
  unfold setup_succeeds
  rw [setup_ldt_eq]
  by_cases ht : truncates h base
  · simp [ht]
  · by_cases hr : m.replies m.ncalls = 0
    · simp [ht, hr, or_seven_ne_zero, seven_le_or_seven]
    · simp [ht, hr]

/-- C9: on success `setup_ldt (entry, ...)` returns `(entry << 3) | 7` in 32-bit
unsigned arithmetic.  For every `entry < 2^29` the result `r` has `r >> 3 = entry`
and `r & 7 = 7`; for every selector `s < 2^32` with its low three bits set,
`setup_ldt (s >> 3, ...)` returns `s`; the two calls of `main` return `0xb7`
and `0xa7`. -/
theorem setup_ldt_selector (h : Host) (base size : Nat) (m : Machine)
    (hs : setup_succeeds h base m) :
    (∀ entry, (setup_ldt h entry base size m).1 = (entry <<< 3) % 2 ^ 32 ||| 7)
    ∧ (∀ entry, entry < 2 ^ 29 →
        (setup_ldt h entry base size m).1 >>> 3 = entry
        ∧ (setup_ldt h entry base size m).1 &&& 7 = 7)
    ∧ (∀ s, s < 2 ^ 32 → s &&& 7 = 7 → (setup_ldt h (s >>> 3) base size m).1 = s)
    ∧ (setup_ldt h (0xb7 >>> 3) base size m).1 = 0xb7
    ∧ (setup_ldt h (0xa7 >>> 3) base size m).1 = 0xa7 := by
  have key : ∀ entry, (setup_ldt h entry base size m).1 = to_uint (entry <<< 3) ||| 7 := by
    intro entry
    rw [setup_ldt_of_succeeds h entry base size m hs]
  refine ⟨key, ?_, ?_, ?_, ?_⟩
  · intro entry he
    rw [key, selector_small entry he, and_seven, Nat.shiftRight_eq_div_pow]
    constructor <;> omega
  · intro s hlt h7
    rw [and_seven] at h7
    have hlt : s >>> 3 < 2 ^ 29 := by rw [Nat.shiftRight_eq_div_pow]; omega
    rw [key, selector_small _ hlt, Nat.shiftRight_eq_div_pow]
    omega
  · rw [key]; rfl
  · rw [key]; rfl

/-- Witness for C9: the first call of `main` on a host where it succeeds. -/
theorem setup_ldt_selector_witness :
    setup_succeeds host64 host64.other (mach all_ok)
    ∧ (setup_ldt host64 (0xb7 >>> 3) host64.other sizeof_int (mach all_ok)).1 = 0xb7
    ∧ (setup_ldt host64 22 host64.other sizeof_int (mach all_ok)).1 >>> 3 = 22 :=
  ⟨by decide,
    (setup_ldt_selector host64 host64.other sizeof_int (mach all_ok) (by decide)).2.2.2.1,
    ((setup_ldt_selector host64 host64.other sizeof_int (mach all_ok) (by decide)).2.1 22
      (by decide)).1⟩

/-- C4: in every run of `main` the descriptor table is modified only at
startup.  The events of the run split into a startup part and a later part.  The
startup part holds nothing but `modify_ldt` calls, at most two: one for entry
22 (`0xb7 >> 3`), then one for entry 20 (`0xa7 >> 3`).  The later part, in which
all segment-register loads and segment-relative reads lie, holds no
`modify_ldt` call, and the table at the end of the run is the table the startup
calls left. -/
theorem main_ldt_only_at_startup (h : Host) (m : Machine) :
    ∃ startup later,
      (main h m).2.trace = m.trace ++ startup ++ later
      ∧ (startup = []
          ∨ (∃ r, startup = [Event.modify_ldt 1 (setup_ldt_ud h 22 h.other 4) r])
          ∨ (∃ r1 r2, startup = [Event.modify_ldt 1 (setup_ldt_ud h 22 h.other 4) r1,
                                Event.modify_ldt 1 (setup_ldt_ud h 20 h.initial 4) r2]))
      ∧ (∀ e ∈ later, is_modify_ldt e = false)
      ∧ (main h m).2.ldt = ldt_after m.ldt startup := by
  rw [main_eq_norm]
  by_cases t1 : truncates h h.other
  · have n1 : ¬ setup_succeeds h h.other m := fun hs => hs.1 t1
    rw [if_pos n1, setup_ldt_of_truncates _ _ _ _ _ t1]
    refine ⟨[], [Event.perror "failed to setup LDT[0xb7>>3] = &other", Event.abort],
      ?_, Or.inl rfl, ?_, rfl⟩
    · simp [abort, perror, emit]
    · simp [is_modify_ldt]
  · obtain ⟨tr1, ld1, -, -, -⟩ :=
      sys_modify_ldt_snd (setup_ldt_ud h 22 h.other 4) m
    by_cases r1 : m.replies m.ncalls = 0
    · have s1 : setup_succeeds h h.other m := ⟨t1, r1⟩
      rw [if_neg (not_not.mpr s1), setup_ldt_of_succeeds _ _ _ _ _ s1]
      rw [if_pos r1] at ld1
      generalize (sys_modify_ldt 1 (setup_ldt_ud h 22 h.other 4) m).2 = m1
        at tr1 ld1 ⊢
      by_cases t2 : truncates h h.initial
      · have n2 : ¬ setup_succeeds h h.initial m1 := fun hs => hs.1 t2
        rw [if_pos n2, setup_ldt_of_truncates _ _ _ _ _ t2]
        refine ⟨[Event.modify_ldt 1 (setup_ldt_ud h 22 h.other 4) (m.replies m.ncalls)],
          [Event.perror "failed to setup LDT[0xa7>>3] = &initial", Event.abort],
          ?_, Or.inr (Or.inl ⟨_, rfl⟩), ?_, ?_⟩
        · simp [abort, perror, emit, tr1]
        · simp [is_modify_ldt]
        · simp [abort, perror, emit, ld1, ldt_after, r1]
      · obtain ⟨tr2, ld2, -, -, -⟩ :=
          sys_modify_ldt_snd (setup_ldt_ud h 20 h.initial 4) m1
        by_cases r2 : m1.replies m1.ncalls = 0
        · have s2 : setup_succeeds h h.initial m1 := ⟨t2, r2⟩
          rw [if_neg (not_not.mpr s2), setup_ldt_of_succeeds _ _ _ _ _ s2]
          rw [if_pos r2] at ld2
          generalize (sys_modify_ldt 1 (setup_ldt_ud h 20 h.initial 4) m1).2
            = m2 at tr2 ld2 ⊢
          obtain ⟨evs, te, ne, le, -⟩ := quiet_probes_a7 h m2 _ _ ld2 rfl rfl
          refine ⟨[Event.modify_ldt 1 (setup_ldt_ud h 22 h.other 4) (m.replies m.ncalls),
              Event.modify_ldt 1 (setup_ldt_ud h 20 h.initial 4) (m1.replies m1.ncalls)],
            evs, ?_, Or.inr (Or.inr ⟨_, _, rfl⟩), ne, ?_⟩
          · rw [te, tr2, tr1]; simp
          · rw [le, ld2, ld1]; simp [ldt_after, r1, r2]
        · have n2 : ¬ setup_succeeds h h.initial m1 := fun hs => r2 hs.2
          rw [if_pos n2, setup_ldt_of_refused _ _ _ _ _ t2 r2]
          rw [if_neg r2] at ld2
          refine ⟨[Event.modify_ldt 1 (setup_ldt_ud h 22 h.other 4) (m.replies m.ncalls),
              Event.modify_ldt 1 (setup_ldt_ud h 20 h.initial 4) (m1.replies m1.ncalls)],
            [Event.perror "failed to setup LDT[0xa7>>3] = &initial", Event.abort],
            ?_, Or.inr (Or.inr ⟨_, _, rfl⟩), ?_, ?_⟩
          · simp [abort, perror, emit, tr2, tr1]
          · simp [is_modify_ldt]
          · simp [abort, perror, emit, ld2, ld1, ldt_after, r1, r2]
    · have n1 : ¬ setup_succeeds h h.other m := fun hs => r1 hs.2
      rw [if_pos n1, setup_ldt_of_refused _ _ _ _ _ t1 r1]
      rw [if_neg r1] at ld1
      refine ⟨[Event.modify_ldt 1 (setup_ldt_ud h 22 h.other 4) (m.replies m.ncalls)],
        [Event.perror "failed to setup LDT[0xb7>>3] = &other", Event.abort],
        ?_, Or.inr (Or.inl ⟨_, rfl⟩), ?_, ?_⟩
      · simp [abort, perror, emit, tr1]
      · simp [is_modify_ldt]
      · simp [abort, perror, emit, ld1, ldt_after, r1]

/-- C7: over a machine in which a read through a segment returns the contents
at that segment's base plus the offset, in every run of `main` in which both
descriptor-table setups succeed (and `initial` still holds its initialiser when
`main` starts), `test_fs` loads `0xa7` into `fs` and each of its three reads
returns `initial = 42`, then `test_gs` loads `0xa7` into `gs` and each of its
three reads returns `initial = 42`; none returns `other = -42`. -/
theorem main_reads_initial (h : Host) (m : Machine)
    (hp : h.initial < 2 ^ h.long_bits)
    (hv : load_int m.mem h.initial = initial)
    (h1 : setup_succeeds h h.other m)
    (h2 : setup_succeeds h h.initial (setup_ldt h (0xb7 >>> 3) h.other sizeof_int m).2) :
    (∃ startup later,
      (main h m).2.trace
        = m.trace ++ startup
          ++ [Event.load Seg.fs 0xa7, Event.read Seg.fs 0 initial,
              Event.read Seg.fs 0 initial, Event.read Seg.fs 0 initial,
              Event.load Seg.gs 0xa7, Event.read Seg.gs 0 initial,
              Event.read Seg.gs 0 initial, Event.read Seg.gs 0 initial]
          ++ later
      ∧ startup = [Event.modify_ldt 1 (setup_ldt_ud h 22 h.other 4) 0,
                   Event.modify_ldt 1 (setup_ldt_ud h 20 h.initial 4) 0])
    ∧ initial = 42 ∧ initial ≠ other := by
  refine ⟨?_, rfl, by decide⟩
  obtain ⟨m2, tr2, -, me2, e⟩ := main_of_succeeds h m h1 h2
  -- the base behind selector 0xa7 is the address of `initial`
  have hb : (setup_ldt_ud h 20 h.initial 4).base_addr = h.initial := by
    rw [setup_ldt_ud_eq h 20 h.initial 4 hp h2.1]
  rw [e, hb]
  obtain ⟨-, mf, tf⟩ := after_test_fields Seg.fs 0xa7 h.initial m2
  obtain ⟨-, -, tg⟩ := after_test_fields Seg.gs 0xa7 h.initial (after_test Seg.fs 0xa7 h.initial m2)
  have v1 : load_int m2.mem (h.initial + 0) = initial := by
    rw [me2]; exact hv
  obtain ⟨later, tl, -, -, -⟩ := quiet_main_tail h
    (after_test Seg.gs 0xa7 h.initial (after_test Seg.fs 0xa7 h.initial m2))
  refine ⟨_, later, ?_, rfl⟩
  rw [tl, tg, mf, tf, v1, tr2]
  simp

/-- Witness for C7: the run on the 64-bit host with a kernel that lets every
call succeed. -/
theorem main_reads_initial_witness :
    (host64.initial < 2 ^ host64.long_bits
      ∧ load_int (mach all_ok).mem host64.initial = initial
      ∧ setup_succeeds host64 host64.other (mach all_ok)
      ∧ setup_succeeds host64 host64.initial
          (setup_ldt host64 (0xb7 >>> 3) host64.other sizeof_int (mach all_ok)).2)
    ∧ ∃ startup later,
      (main host64 (mach all_ok)).2.trace
        = (mach all_ok).trace ++ startup
          ++ [Event.load Seg.fs 0xa7, Event.read Seg.fs 0 initial,
              Event.read Seg.fs 0 initial, Event.read Seg.fs 0 initial,
              Event.load Seg.gs 0xa7, Event.read Seg.gs 0 initial,
              Event.read Seg.gs 0 initial, Event.read Seg.gs 0 initial]
          ++ later
      ∧ startup = [Event.modify_ldt 1 (setup_ldt_ud host64 22 host64.other 4) 0,
                   Event.modify_ldt 1 (setup_ldt_ud host64 20 host64.initial 4) 0] :=
  ⟨⟨by decide, by decide, by decide, by decide⟩,
    (main_reads_initial host64 (mach all_ok) (by decide) (by decide) (by decide)
      (by decide)).1⟩

/-- Counterexample to C2: two calls of `arch_set_fs_read` (and of
`arch_set_gs_read`) that differ only in the answer of `arch_prctl`.  When the
call succeeds the function reads through the segment and returns the value read
(42); when it fails the function returns 0 and performs no read.  So the result
is checked, and both the operations performed and the value returned depend on
it. -/
theorem arch_prctl_result_matters :
    (arch_set_fs_read 4096 (mach all_ok)).1 ≠ (arch_set_fs_read 4096 (mach (fail_at 0))).1
    ∧ (arch_set_fs_read 4096 (mach all_ok)).2.trace
        = [Event.arch_prctl Seg.fs 4096 0, Event.read Seg.fs 0 42]
    ∧ (arch_set_fs_read 4096 (mach (fail_at 0))).2.trace
        = [Event.arch_prctl Seg.fs 4096 (-1)]
    ∧ (arch_set_gs_read 4096 (mach all_ok)).1 ≠ (arch_set_gs_read 4096 (mach (fail_at 0))).1
    ∧ (arch_set_gs_read 4096 (mach all_ok)).2.trace
        = [Event.arch_prctl Seg.gs 4096 0, Event.read Seg.gs 0 42]
    ∧ (arch_set_gs_read 4096 (mach (fail_at 0))).2.trace
        = [Event.arch_prctl Seg.gs 4096 (-1)] := by
  decide

/-- C2, amended: the only failure that ends the program is failure to install a
descriptor-table entry, but the result of each `arch_prctl` call is checked.
When the call returns non-zero, `arch_set_fs_read` / `arch_set_gs_read` return 0
and do not read through the segment; when it returns 0 they read once at offset
0 and return the value read.  Nothing else depends on the result: whichever way
it went, `test_arch_set_fs` / `test_arch_set_gs` go on with their two further
reads, and the part of `main` that follows the two setups never aborts and
returns 0.  (`main_probes` is that part of `main`, `main_tail` the statements
of it that hold the `arch_prctl` calls; a selector other than the one the
second setup returns can make the `mov` fault, which is no abort.) -/
theorem arch_prctl_result_checked (h : Host) (a : Nat) (m : Machine) :
    (m.replies m.ncalls ≠ 0 →
      (arch_set_fs_read a m).1 = 0
      ∧ (arch_set_fs_read a m).2.trace
          = m.trace ++ [Event.arch_prctl Seg.fs a (m.replies m.ncalls)]
      ∧ (arch_set_gs_read a m).1 = 0
      ∧ (arch_set_gs_read a m).2.trace
          = m.trace ++ [Event.arch_prctl Seg.gs a (m.replies m.ncalls)])
    ∧ (m.replies m.ncalls = 0 →
      (arch_set_fs_read a m).1 = load_int m.mem (a + 0)
      ∧ (arch_set_fs_read a m).2.trace
          = m.trace ++ [Event.arch_prctl Seg.fs a 0,
              Event.read Seg.fs 0 (load_int m.mem (a + 0))]
      ∧ (arch_set_gs_read a m).1 = load_int m.mem (a + 0)
      ∧ (arch_set_gs_read a m).2.trace
          = m.trace ++ [Event.arch_prctl Seg.gs a 0,
              Event.read Seg.gs 0 (load_int m.mem (a + 0))])
    ∧ (∃ v, (test_arch_set_fs h m).trace
        = (arch_set_fs_read h.initial m).2.trace
          ++ [Event.read Seg.fs 0 v, Event.read Seg.fs 0 v])
    ∧ (∃ v, (test_arch_set_gs h m).trace
        = (arch_set_gs_read h.initial m).2.trace
          ++ [Event.read Seg.gs 0 v, Event.read Seg.gs 0 v])
    ∧ (∀ selector, (main_probes h selector m).1 ≠ Outcome.aborted)
    ∧ (main_tail h m).1 = Outcome.exited 0
    ∧ (setup_succeeds h h.other m →
        setup_succeeds h h.initial (setup_ldt h (0xb7 >>> 3) h.other sizeof_int m).2 →
        (main h m).1 = Outcome.exited 0) := by
  refine ⟨?_, ?_, ?_, ?_, ?_, rfl, ?_⟩
  · intro hr
    rw [arch_set_fs_read_eq, arch_set_gs_read_eq, if_pos hr]
    simp [sys_arch_prctl, emit, hr]
  · intro hr
    rw [arch_set_fs_read_eq, arch_set_gs_read_eq, if_neg (not_not.mpr hr)]
    simp [sys_arch_prctl, emit, hr, read_fs, read_gs, mov_from_seg, set_base, get_base]
  · refine ⟨load_int (arch_set_fs_read h.initial m).2.mem
      (arch_set_fs_read h.initial m).2.fs_base, ?_⟩
    simp [test_arch_set_fs, read_fs, mov_from_seg, emit, get_base]
  · refine ⟨load_int (arch_set_gs_read h.initial m).2.mem
      (arch_set_gs_read h.initial m).2.gs_base, ?_⟩
    simp [test_arch_set_gs, read_gs, mov_from_seg, emit, get_base]
  · intro selector
    unfold main_probes
    split
    · simp
    · split
      · simp
      · rw [main_tail_fst]
        simp
  · intro h1 h2
    obtain ⟨m2, -, -, -, e⟩ := main_of_succeeds h m h1 h2
    rw [e]
    rfl

/-- Witness for C2 as amended: a refused `arch_prctl` call on the 64-bit host,
and an accepted one. -/
theorem arch_prctl_result_checked_witness :
    ((mach (fail_at 0)).replies (mach (fail_at 0)).ncalls ≠ 0
      ∧ (arch_set_fs_read 4096 (mach (fail_at 0))).1 = 0)
    ∧ ((mach all_ok).replies (mach all_ok).ncalls = 0
      ∧ (arch_set_fs_read 4096 (mach all_ok)).1 = load_int (mach all_ok).mem (4096 + 0)) :=
  ⟨⟨by decide, ((arch_prctl_result_checked host64 4096 (mach (fail_at 0))).1 (by decide)).1⟩,
    ⟨by decide, ((arch_prctl_result_checked host64 4096 (mach all_ok)).2.1 (by decide)).1⟩⟩

/-- Counterexample to C6: on a 64-bit host `setup_ldt (22, base, 2^32)` passes a
descriptor whose `limit` is 0, not the size `2^32`: the size is converted to
`unsigned int` before it is stored. -/
theorem setup_ldt_limit_is_truncated :
    (setup_ldt host64 22 4096 (2 ^ 32) (mach all_ok)).2.trace
      = [Event.modify_ldt 1
          { entry_number := 22, base_addr := 4096, limit := 0, seg_32bit := 0,
            contents := 0, read_exec_only := 0, limit_in_pages := 0,
            seg_not_present := 0, useable := 0, lm := 0 } 0]
    ∧ (0 : Nat) ≠ 2 ^ 32 := by
  decide

/-- C6, amended: whenever `setup_ldt (entry, base, size)` calls `modify_ldt`,
the descriptor it passes has `entry_number = entry`, `base_addr = base` and
`limit = size` converted to `unsigned int` (`size mod 2^32`, which is `size` when
`size < 2^32`), with every other field zero; when the base would be truncated no
descriptor is passed at all.  So in a run of `main` in which both setups succeed
the program installs entry 22 with base `&other` and entry 20 with base
`&initial`, each with limit `sizeof (int) = 4`, and no other descriptor. -/
theorem setup_ldt_descriptor (h : Host) (m : Machine) :
    (∀ entry base size, base < 2 ^ h.long_bits → ¬ truncates h base →
      (setup_ldt h entry base size m).2.trace
        = m.trace ++ [Event.modify_ldt 1
            { entry_number := entry, base_addr := base, limit := size % 2 ^ 32,
              seg_32bit := 0, contents := 0, read_exec_only := 0, limit_in_pages := 0,
              seg_not_present := 0, useable := 0, lm := 0 } (m.replies m.ncalls)]
      ∧ (size < 2 ^ 32 → size % 2 ^ 32 = size))
    ∧ (∀ entry base size, truncates h base →
      (setup_ldt h entry base size m).2.trace = m.trace)
    ∧ (h.other < 2 ^ h.long_bits → h.initial < 2 ^ h.long_bits →
        setup_succeeds h h.other m →
        setup_succeeds h h.initial (setup_ldt h (0xb7 >>> 3) h.other sizeof_int m).2 →
        ∃ later,
          (main h m).2.trace
            = m.trace
              ++ [Event.modify_ldt 1
                    { entry_number := 22, base_addr := h.other, limit := 4,
                      seg_32bit := 0, contents := 0, read_exec_only := 0,
                      limit_in_pages := 0, seg_not_present := 0, useable := 0, lm := 0 } 0,
                  Event.modify_ldt 1
                    { entry_number := 20, base_addr := h.initial, limit := 4,
                      seg_32bit := 0, contents := 0, read_exec_only := 0,
                      limit_in_pages := 0, seg_not_present := 0, useable := 0, lm := 0 } 0]
              ++ later
          ∧ (∀ e ∈ later, is_modify_ldt e = false)
          ∧ (main h m).2.ldt
              = { entry_number := 20, base_addr := h.initial, limit := 4,
                  seg_32bit := 0, contents := 0, read_exec_only := 0,
                  limit_in_pages := 0, seg_not_present := 0, useable := 0, lm := 0 }
                :: { entry_number := 22, base_addr := h.other, limit := 4,
                     seg_32bit := 0, contents := 0, read_exec_only := 0,
                     limit_in_pages := 0, seg_not_present := 0, useable := 0, lm := 0 }
                :: m.ldt) := by
  refine ⟨?_, ?_, ?_⟩
  · intro entry base size hp ht
    refine ⟨?_, fun hs => Nat.mod_eq_of_lt hs⟩
    rw [← setup_ldt_ud_eq h entry base size hp ht]
    by_cases hr : m.replies m.ncalls = 0
    · rw [setup_ldt_of_succeeds _ _ _ _ _ ⟨ht, hr⟩]
      exact (sys_modify_ldt_snd _ m).1
    · rw [setup_ldt_of_refused _ _ _ _ _ ht hr]
      exact (sys_modify_ldt_snd _ m).1
  · intro entry base size ht
    rw [setup_ldt_of_truncates _ _ _ _ _ ht]
  · intro hpo hpi h1 h2
    have h2n : setup_succeeds h h.initial (setup_ldt h 22 h.other 4 m).2 := h2
    have u22 := setup_ldt_ud_eq h 22 h.other 4 hpo h1.1
    have u20 := setup_ldt_ud_eq h 20 h.initial 4 hpi h2n.1
    rw [show (4 : Nat) % 2 ^ 32 = 4 from rfl] at u22 u20
    rw [← u22, ← u20]
    rw [main_eq_norm, if_neg (not_not.mpr h1), if_neg (not_not.mpr h2n)]
    rw [setup_ldt_of_succeeds _ _ _ _ _ h1] at h2n ⊢
    obtain ⟨tr1, ld1, -, -, -⟩ := sys_modify_ldt_snd (setup_ldt_ud h 22 h.other 4) m
    rw [h1.2] at tr1
    rw [if_pos h1.2] at ld1
    generalize (sys_modify_ldt 1 (setup_ldt_ud h 22 h.other 4) m).2 = m1 at tr1 ld1 h2n ⊢
    rw [setup_ldt_of_succeeds _ _ _ _ _ h2n]
    obtain ⟨tr2, ld2, -, -, -⟩ := sys_modify_ldt_snd (setup_ldt_ud h 20 h.initial 4) m1
    rw [h2n.2] at tr2
    rw [if_pos h2n.2] at ld2
    generalize (sys_modify_ldt 1 (setup_ldt_ud h 20 h.initial 4) m1).2 = m2 at tr2 ld2 ⊢
    obtain ⟨later, tl, nl, ll, -⟩ := quiet_probes_a7 h m2 _ _ ld2 rfl rfl
    refine ⟨later, ?_, nl, ?_⟩
    · rw [tl, tr2, tr1]; simp
    · rw [ll, ld2, ld1]

/-- Witness for C6 as amended: the run on the 64-bit host with a kernel that
lets every call succeed. -/
theorem setup_ldt_descriptor_witness :
    (4096 < 2 ^ host64.long_bits ∧ ¬ truncates host64 4096)
    ∧ (setup_ldt host64 22 4096 (2 ^ 32 + 4) (mach all_ok)).2.trace
        = (mach all_ok).trace ++ [Event.modify_ldt 1
            { entry_number := 22, base_addr := 4096, limit := (2 ^ 32 + 4) % 2 ^ 32,
              seg_32bit := 0, contents := 0, read_exec_only := 0, limit_in_pages := 0,
              seg_not_present := 0, useable := 0, lm := 0 }
            ((mach all_ok).replies (mach all_ok).ncalls)] :=
  ⟨⟨by decide, by decide⟩,
    ((setup_ldt_descriptor host64 (mach all_ok)).1 22 4096 (2 ^ 32 + 4) (by decide)
      (by decide)).1⟩

end X86Fsgs
